import Mathlib

/-!
Shallow embedding of `src/bqt/__init__.py` (the bqt Blender/Qt integration
layer) together with proofs about the claims of its specification.

Conventions of the embedding:
* Python strings are Lean `String`; the Python substring test `n in h` is
  the executable function `pyInStr`.
* The module-level mutable environment (`bpy.app.handlers.load_post`, the
  `QApplication` singleton, the registered operator classes, the module
  global `parent_window`, the atexit registrations and the modal-handler
  installs) is the record `State`; each Python function becomes a function
  on `State`.
* A Python function that can raise returns `State × Option PyError`: the
  first component is the state as mutated up to the point of the raise,
  the second is `some e` when the call raises `e` and `none` otherwise.
  (Blender catches exceptions escaping a `load_post` handler, reports
  them, and keeps going; `runHandler` below models that.)
* Observable side effects that leave the process (the `keybd_event` calls
  releasing a key, the diagnostic print, geometry persistence, quitting
  the application) are collected in `List Effect` results.
-/

namespace Bqt

/-- Values of Python `sys.platform` distinguished by `load_os_module`
(src/bqt/__init__.py lines 104-115). -/
inductive Platform
  | darwin
  | linux
  | linux2
  | win32
  | other
deriving DecidableEq

/-- The two callbacks this module ever places on
`bpy.app.handlers.load_post`: `add_focus_handle` (line 119) and
`create_global_app` (line 128). -/
inductive Handler
  | addFocusHandle
  | createGlobalApp
deriving DecidableEq

/-- Window position and size, the data persisted by
`store_window_geometry` (spec section 4.2). -/
structure Geometry where
  x : Int
  y : Int
  w : Nat
  h : Nat
deriving DecidableEq

/-- State of the `BlenderApplication` / `QApplication` singleton.
`just_focused` is the flag read and cleared by `detect_keyboard`
(lines 58-59); the remaining fields model the geometry persistence and
the running event loop that `on_exit` touches (lines 190-195, spec
section 4.2). -/
structure App where
  just_focused : Bool
  geometry : Geometry
  savedGeometry : Option Geometry
  running : Bool
deriving DecidableEq

/-- Python exceptions the embedded functions can raise. -/
inductive PyError
  | attributeError
  | valueError
  | nameError
deriving DecidableEq

/-- Externally observable side effects. -/
inductive Effect
  | keyRelease (code : Nat)
  | diagnosticNoApp
  | storeGeometry
  | quitCalled
deriving DecidableEq

/-- The module-level mutable environment.  `hooks` is
`bpy.app.handlers.load_post` (restricted to the two handlers this module
owns), `registeredClasses` records the `bpy.utils.register_class` calls
made, `atexitCount` the number of live `atexit.register(on_exit)`
registrations, `parentWindow` whether the module global `parent_window`
(line 124) holds a reference, and `modalHandlers` the number of modal
handlers installed by the focus operator. -/
structure State where
  platform : Platform
  app : Option App
  hooks : List Handler
  registeredClasses : List String
  atexitCount : Nat
  parentWindow : Bool
  modalHandlers : Nat
deriving DecidableEq

/-- Environment variables consulted by `register` / `unregister`
(lines 150, 154, 181).  `none` models an unset variable. -/
structure Env where
  BQT_DISABLE_STARTUP : Option String
  BQT_DISABLE_WRAP : Option String
deriving DecidableEq

/-- Python truthiness of `os.getenv(name, 0)`: unset yields the falsy
default; a set variable is truthy exactly when it is a nonempty string. -/
def getenvTruthy : Option String → Bool
  | none => false
  | some s => !(s == "")

/-- Does the first character list lead (start) the second one? -/
def leadChars : List Char → List Char → Bool
  | [], _ => true
  | _ :: _, [] => false
  | a :: as, b :: bs => a == b && leadChars as bs

/-- Does the first character list occur contiguously inside the second? -/
def hasRun : List Char → List Char → Bool
  | n, [] => leadChars n []
  | n, b :: t => leadChars n (b :: t) || hasRun n t

/-- The Python string membership test `needle in hay` (substring test),
used by line 74 `if name not in event.type`. -/
def pyInStr (needle hay : String) : Bool :=
  hasRun needle.toList hay.toList

/-- The key-code table of `detect_keyboard` (lines 62-68): virtual-key
codes for Alt, Control, Shift and the two OS keys. -/
def keycodes : List (String × Nat) :=
  [("_ALT", 0x12), ("_CONTROL", 0x11), ("_SHIFT", 0x10),
   ("VK_LWIN", 0x5B), ("VK_RWIN", 0x5C)]

/-- The `keybd_event(code, 0, 2, 0)` release calls issued by the loop of
lines 70-76: one release per table entry whose name is not a substring
of the triggering event's `type` string. -/
def emittedReleases (eventType : String) : List Effect :=
  (keycodes.filter (fun p => !(pyInStr p.1 eventType))).map
    (fun p => Effect.keyRelease p.2)

/-- The method `QFocusOperator.detect_keyboard` (lines 47-76).  Its inputs are the
`QApplication` singleton (the operator attribute `self._qapp` is
reassigned from `QApplication.instance()` at the top of every call and
read only within the call, so it is modelled as the local binding of the
match) and the triggering event's `type` string.  It returns the updated
singleton and the effects performed. -/
def detect_keyboard (app : Option App) (eventType : String) :
    Option App × List Effect :=
  match app with
  | none => (none, [Effect.diagnosticNoApp])
  | some a =>
    if a.just_focused then
      (some { a with just_focused := false }, emittedReleases eventType)
    else
      (some a, [])

/-- Modelled from the spec: construction of the platform
`BlenderApplication` (the `blender_applications` package is not under
`src/`).  Spec section 4.2: construct the singleton and wrap the host
window; the flag `just_focused` is set later by the toolkit's
focus-gained signal (spec section 4.3), so a fresh instance starts with
it clear, no saved geometry, and a running event loop.  Only the facts
that construction succeeds and yields the singleton are used by the
proofs. -/
def newBlenderApplication : App :=
  { just_focused := false
    geometry := { x := 0, y := 0, w := 0, h := 0 }
    savedGeometry := none
    running := true }

/-- The function `load_os_module` (lines 97-115): darwin and win32 construct and
return a platform application; linux and linux2 fall into the `pass`
branch and the function returns `None`, as does any other platform. -/
def load_os_module : Platform → Option App
  | Platform.darwin => some newBlenderApplication
  | Platform.linux => none
  | Platform.linux2 => none
  | Platform.win32 => some newBlenderApplication
  | Platform.other => none

/-- The function `instantiate_application` (lines 80-94): return the existing
`QApplication` singleton if there is one, otherwise whatever
`load_os_module` produces (possibly `None`). -/
def instantiate_application (s : State) : Option App :=
  match s.app with
  | some a => some a
  | none => load_os_module s.platform

/-- The handler `create_global_app` (lines 127-142): instantiate the application;
if that yielded `None` (unsupported platform, no existing singleton),
the attribute access `qapp._blender_window` on line 138 raises an
`AttributeError` with the state unchanged.  Otherwise store the parent
reference in the module global `parent_window` and remove itself from
`load_post` (line 142); `list.remove` raises a `ValueError` if the
handler is absent, after the earlier mutations already happened. -/
def create_global_app (s : State) : State × Option PyError :=
  match instantiate_application s with
  | none => (s, some PyError.attributeError)
  | some a =>
    if Handler.createGlobalApp ∈ s.hooks then
      ({ s with
          app := some a
          parentWindow := true
          hooks := s.hooks.erase Handler.createGlobalApp }, none)
    else
      ({ s with app := some a, parentWindow := true }, some PyError.valueError)

/-- The handler `add_focus_handle` (lines 118-121): invoke the registered
`bqt.return_focus` operator, whose `invoke` installs a modal handler
(line 37).  If the operator class was never registered, `bpy.ops`
raises an `AttributeError`. -/
def add_focus_handle (s : State) : State × Option PyError :=
  if "QFocusOperator" ∈ s.registeredClasses then
    ({ s with modalHandlers := s.modalHandlers + 1 }, none)
  else
    (s, some PyError.attributeError)

/-- One `load_post` handler firing.  Blender catches an exception that
escapes a handler, reports it, and continues, so the state mutated up to
the raise is kept. -/
def runHandler (h : Handler) (s : State) : State :=
  match h with
  | Handler.addFocusHandle => (add_focus_handle s).1
  | Handler.createGlobalApp => (create_global_app s).1

/-- A scene load: Blender fires every handler currently on `load_post`,
in list order, threading the (possibly handler-mutated) state. -/
def fireLoadPost (s : State) : State :=
  s.hooks.foldl (fun st h => runHandler h st) s

/-- Lines 168-171 of `register`: append `create_global_app` to
`load_post` unless already present, then `atexit.register(on_exit)`.
Reached only when the lines before ran without raising. -/
def registerTail (s : State) : State × Option PyError :=
  let s2 : State :=
    if Handler.createGlobalApp ∈ s.hooks then s
    else { s with hooks := s.hooks ++ [Handler.createGlobalApp] }
  ({ s2 with atexitCount := s2.atexitCount + 1 }, none)

/-- The function `register` (lines 145-171): return early if `BQT_DISABLE_STARTUP`
is truthy.  If `BQT_DISABLE_WRAP` is not truthy, line 155 calls
`bpy.utils.register_class(QFocusOperator)` — which raises a ValueError
when the class is already registered, aborting the call before any hook
is touched — and then appends `add_focus_handle` to `load_post` unless
already present.  Afterwards (lines 168-171, also reached when the wrap
variable is truthy) append `create_global_app` unless already present
and `atexit.register(on_exit)`. -/
def register (env : Env) (s : State) : State × Option PyError :=
  if getenvTruthy env.BQT_DISABLE_STARTUP then (s, none)
  else if !(getenvTruthy env.BQT_DISABLE_WRAP) then
    if "QFocusOperator" ∈ s.registeredClasses then
      (s, some PyError.valueError)
    else
      let sc : State :=
        { s with registeredClasses := s.registeredClasses ++ ["QFocusOperator"] }
      if Handler.addFocusHandle ∈ sc.hooks then registerTail sc
      else registerTail { sc with hooks := sc.hooks ++ [Handler.addFocusHandle] }
  else registerTail s

/-- The function `unregister` (lines 174-187): unless `BQT_DISABLE_WRAP` equals the
string "1", line 182 evaluates `focus.QFocusOperator`, and the name
`focus` is not defined anywhere in the module, so the call raises a
`NameError` before touching the handler lists.  Otherwise the two
guarded removals run and `atexit.unregister(on_exit)` drops the exit
registrations. -/
def unregister (env : Env) (s : State) : State × Option PyError :=
  if env.BQT_DISABLE_WRAP = some "1" then
    let s1 : State :=
      if Handler.createGlobalApp ∈ s.hooks then
        { s with hooks := s.hooks.erase Handler.createGlobalApp }
      else s
    let s2 : State :=
      if Handler.addFocusHandle ∈ s1.hooks then
        { s1 with hooks := s1.hooks.erase Handler.addFocusHandle }
      else s1
    ({ s2 with atexitCount := 0 }, none)
  else
    (s, some PyError.nameError)

/-- Modelled from the spec: `BlenderApplication.store_window_geometry`
(the `blender_applications` package is not under `src/`); spec section
4.2: persist the current window position and size. -/
def store_window_geometry (a : App) : App :=
  { a with savedGeometry := some a.geometry }

/-- Modelled from the spec: `BlenderApplication.quit` (the
`blender_applications` package is not under `src/`); spec section 4.2:
terminate the toolkit application's event loop. -/
def quit (a : App) : App :=
  { a with running := false }

/-- The function `on_exit` (lines 190-195): if the `QApplication` singleton exists,
persist the window geometry and then quit it, in that order; otherwise
do nothing. -/
def on_exit (app : Option App) : Option App × List Effect :=
  match app with
  | none => (none, [])
  | some a =>
    (some (quit (store_window_geometry a)),
     [Effect.storeGeometry, Effect.quitCalled])

/-- Event type strings the host delivers for a Control keypress, per the
host API (Blender `Event.type`).  Not part of this repository; recorded
here to relate the claim's phrase "the event's key IS Control" to the
strings `detect_keyboard` actually receives. -/
def controlEventTypes : List String := ["LEFT_CTRL", "RIGHT_CTRL"]

/-- A fresh module environment: no application yet, empty `load_post`,
nothing registered; the platform is one with a supported implementation. -/
def initState : State :=
  { platform := Platform.win32, app := none, hooks := [],
    registeredClasses := [], atexitCount := 0, parentWindow := false,
    modalHandlers := 0 }

/-- Both environment variables unset. -/
def envUnset : Env := { BQT_DISABLE_STARTUP := none, BQT_DISABLE_WRAP := none }

/-- Only the wrap-disabling variable set (to the string "1"). -/
def envWrapDisabled : Env :=
  { BQT_DISABLE_STARTUP := none, BQT_DISABLE_WRAP := some "1" }

/-- The state right after `register` ran in a fresh win32 environment. -/
def readyState : State := (register envUnset initState).1

/-- An application singleton whose `just_focused` flag is set, as after
the toolkit's focus-gained signal fired. -/
def focusedApp : App := { newBlenderApplication with just_focused := true }

/-- A fresh Linux environment after registration: no application, both
handlers on `load_post`, operator class registered. -/
def linuxState : State :=
  { platform := Platform.linux, app := none,
    hooks := [Handler.addFocusHandle, Handler.createGlobalApp],
    registeredClasses := ["QFocusOperator"], atexitCount := 1,
    parentWindow := false, modalHandlers := 0 }

/-! Helper lemmas -/

theorem runAFH_preserves (s : State) :
    (runHandler Handler.addFocusHandle s).hooks = s.hooks ∧
      (runHandler Handler.addFocusHandle s).app = s.app ∧
      (runHandler Handler.addFocusHandle s).platform = s.platform := by
  show ((add_focus_handle s).1).hooks = s.hooks ∧
      ((add_focus_handle s).1).app = s.app ∧
      ((add_focus_handle s).1).platform = s.platform
  unfold add_focus_handle
  by_cases hq : "QFocusOperator" ∈ s.registeredClasses
  · rw [if_pos hq]; exact ⟨rfl, rfl, rfl⟩
  · rw [if_neg hq]; exact ⟨rfl, rfl, rfl⟩

theorem instantiate_runAFH (s : State) :
    instantiate_application (runHandler Handler.addFocusHandle s) =
      instantiate_application s := by
  show instantiate_application ((add_focus_handle s).1) =
      instantiate_application s
  unfold add_focus_handle
  by_cases hq : "QFocusOperator" ∈ s.registeredClasses
  · rw [if_pos hq]; rfl
  · rw [if_neg hq]

theorem runCGA_removes (s : State)
    (hc : s.hooks.count Handler.createGlobalApp ≤ 1)
    (hi : (instantiate_application s).isSome) :
    Handler.createGlobalApp ∉ (runHandler Handler.createGlobalApp s).hooks := by
  obtain ⟨a, ha⟩ := Option.isSome_iff_exists.mp hi
  show Handler.createGlobalApp ∉ ((create_global_app s).1).hooks
  by_cases hmem : Handler.createGlobalApp ∈ s.hooks
  · simp only [create_global_app, ha, hmem, if_true]
    intro hcon
    have h0 : (s.hooks.erase Handler.createGlobalApp).count
        Handler.createGlobalApp = 0 := by
      rw [List.count_erase_self]
      omega
    exact (List.count_eq_zero.mp h0) hcon
  · simp only [create_global_app, ha, hmem, if_false]
    exact not_false

theorem foldl_preserves_absent (l : List Handler) :
    ∀ s : State, Handler.createGlobalApp ∉ s.hooks →
      Handler.createGlobalApp ∉
        (l.foldl (fun st h => runHandler h st) s).hooks := by
  induction l with
  | nil => intro s hs; exact hs
  | cons h t ih =>
    intro s hs
    rw [List.foldl_cons]
    apply ih
    cases h with
    | addFocusHandle =>
      rw [(runAFH_preserves s).1]
      exact hs
    | createGlobalApp =>
      show Handler.createGlobalApp ∉ ((create_global_app s).1).hooks
      cases hinst : instantiate_application s with
      | none =>
        simp only [create_global_app, hinst]
        exact hs
      | some a =>
        simp only [create_global_app, hinst, hs, if_false]
        exact not_false

theorem foldl_removes (l : List Handler) :
    ∀ s : State, s.hooks.count Handler.createGlobalApp ≤ 1 →
      (instantiate_application s).isSome →
      Handler.createGlobalApp ∈ l →
      Handler.createGlobalApp ∉
        (l.foldl (fun st h => runHandler h st) s).hooks := by
  induction l with
  | nil => intro s _ _ hmem; exact absurd hmem (List.not_mem_nil _)
  | cons h t ih =>
    intro s hc hi hmem
    rw [List.foldl_cons]
    cases h with
    | addFocusHandle =>
      refine ih (runHandler Handler.addFocusHandle s) ?_ ?_ ?_
      · rw [(runAFH_preserves s).1]; exact hc
      · rw [instantiate_runAFH s]; exact hi
      · rcases List.mem_cons.mp hmem with h' | h'
        · exact absurd h' (by decide)
        · exact h'
    | createGlobalApp =>
      exact foldl_preserves_absent t _ (runCGA_removes s hc hi)

theorem fire_preserves_absent (s : State)
    (h : Handler.createGlobalApp ∉ s.hooks) :
    Handler.createGlobalApp ∉ (fireLoadPost s).hooks :=
  foldl_preserves_absent s.hooks s h

/-! The hook list stays duplicate free.

The membership guards in `register` and `unregister` do keep
`load_post` free of duplicates across any sequence of calls (the state
a raising `register` or `unregister` leaves behind is its input state,
so the invariant survives the raises as well). -/

/-- A register or unregister call together with the environment it
reads. -/
inductive Call
  | reg (env : Env)
  | unreg (env : Env)

/-- Run one call, keeping whatever state a raising call produced. -/
def runCall (c : Call) (s : State) : State :=
  match c with
  | Call.reg env => (register env s).1
  | Call.unreg env => (unregister env s).1

theorem append_one_nodup {l : List Handler} {a : Handler}
    (h : l.Nodup) (ha : a ∉ l) : (l ++ [a]).Nodup := by
  simp [List.nodup_append, h, ha]

theorem registerTail_preserves_nodup (s : State) (h : s.hooks.Nodup) :
    (((registerTail s).1).hooks).Nodup := by
  by_cases hC : Handler.createGlobalApp ∈ s.hooks
  · have he : ((registerTail s).1).hooks = s.hooks := by
      simp [registerTail, hC]
    rw [he]; exact h
  · have he : ((registerTail s).1).hooks = s.hooks ++ [Handler.createGlobalApp] := by
      simp [registerTail, hC]
    rw [he]; exact append_one_nodup h hC

theorem register_preserves_nodup (env : Env) (s : State)
    (h : s.hooks.Nodup) : (((register env s).1).hooks).Nodup := by
  by_cases h0 : getenvTruthy env.BQT_DISABLE_STARTUP = true
  · have he : (register env s).1 = s := by simp [register, h0]
    rw [he]; exact h
  · rw [Bool.not_eq_true] at h0
    by_cases hw : getenvTruthy env.BQT_DISABLE_WRAP = true
    · have he : (register env s).1 = (registerTail s).1 := by
        simp [register, h0, hw]
      rw [he]; exact registerTail_preserves_nodup s h
    · rw [Bool.not_eq_true] at hw
      by_cases hq : "QFocusOperator" ∈ s.registeredClasses
      · have he : (register env s).1 = s := by simp [register, h0, hw, hq]
        rw [he]; exact h
      · by_cases hA : Handler.addFocusHandle ∈ s.hooks
        · have he : (register env s).1
              = (registerTail { s with registeredClasses :=
                  s.registeredClasses ++ ["QFocusOperator"] }).1 := by
            simp [register, h0, hw, hq, hA]
          rw [he]
          exact registerTail_preserves_nodup _ h
        · have he : (register env s).1
              = (registerTail { s with
                  registeredClasses := s.registeredClasses ++ ["QFocusOperator"]
                  hooks := s.hooks ++ [Handler.addFocusHandle] }).1 := by
            simp [register, h0, hw, hq, hA]
          rw [he]
          exact registerTail_preserves_nodup _ (append_one_nodup h hA)

theorem unregister_preserves_nodup (env : Env) (s : State)
    (h : s.hooks.Nodup) : (((unregister env s).1).hooks).Nodup := by
  by_cases hw : env.BQT_DISABLE_WRAP = some "1"
  · by_cases hC : Handler.createGlobalApp ∈ s.hooks <;>
      by_cases hA : Handler.addFocusHandle ∈
        (if Handler.createGlobalApp ∈ s.hooks then
          { s with hooks := s.hooks.erase Handler.createGlobalApp }
         else s).hooks <;>
      simp only [unregister, hw, hC, hA, if_true, if_false, ite_true, ite_false,
        reduceIte] <;>
      simp_all <;>
      first
        | exact h
        | exact h.erase _
        | exact (h.erase _).erase _
  · have : ((unregister env s).1).hooks = s.hooks := by
      simp [unregister, hw]
    rw [this]; exact h

theorem calls_keep_hooks_nodup (cs : List Call) :
    ∀ s : State, s.hooks.Nodup →
      ((cs.foldl (fun st c => runCall c st) s).hooks).Nodup := by
  induction cs with
  | nil => intro s hs; exact hs
  | cons c t ih =>
    intro s hs
    rw [List.foldl_cons]
    apply ih
    cases c with
    | reg env => exact register_preserves_nodup env s hs
    | unreg env => exact unregister_preserves_nodup env s hs

/-! Claim theorems -/

/-- Claim C1: the window-wrap hook `create_global_app` removes itself
from `load_post` during its first successful execution; after the scene
load on which it fired it is absent from the hook list, and it stays
absent over every later scene load, so it never runs again.  The
hypotheses say the hook list holds the handler (at most once, the
invariant the membership-guarded registration maintains) and that the
execution succeeds (`instantiate_application` yields an application). -/
theorem c1_wrap_hook_self_removes (s : State)
    (hcount : s.hooks.count Handler.createGlobalApp ≤ 1)
    (hsucc : (instantiate_application s).isSome)
    (hmem : Handler.createGlobalApp ∈ s.hooks) :
    Handler.createGlobalApp ∉ (fireLoadPost s).hooks ∧
      ∀ n : Nat,
        Handler.createGlobalApp ∉ (fireLoadPost^[n] (fireLoadPost s)).hooks := by
  have h0 : Handler.createGlobalApp ∉ (fireLoadPost s).hooks :=
    foldl_removes s.hooks s hcount hsucc hmem
  refine ⟨h0, ?_⟩
  intro n
  induction n with
  | zero => exact h0
  | succ k ihk =>
    rw [Function.iterate_succ_apply']
    exact fire_preserves_absent _ ihk

/-- Witness for C1 at the state produced by `register` in a fresh win32
environment: one scene load fires and removes the wrap hook, and it is
still absent two scene loads later. -/
theorem c1_witness :
    Handler.createGlobalApp ∉ (fireLoadPost readyState).hooks ∧
      Handler.createGlobalApp ∉
        (fireLoadPost^[2] (fireLoadPost readyState)).hooks :=
  ⟨(c1_wrap_hook_self_removes readyState (by decide) (by decide) (by decide)).1,
   (c1_wrap_hook_self_removes readyState (by decide) (by decide) (by decide)).2 2⟩

/-- Claim C2: when the application singleton exists, `just_focused` is
true, and none of the five key-code names occurs in the triggering
event's type string (true of every event whose key is not one of the
five modifiers), `detect_keyboard` emits exactly one OS-level key
release per modifier — the five codes 0x12, 0x11, 0x10, 0x5B, 0x5C,
once each, in table order — and clears `just_focused` to false. -/
theorem c2_nonmodifier_releases_all (a : App) (ev : String)
    (hfoc : a.just_focused = true)
    (hmod : ∀ p ∈ keycodes, pyInStr p.1 ev = false) :
    detect_keyboard (some a) ev =
      (some { a with just_focused := false },
       [Effect.keyRelease 0x12, Effect.keyRelease 0x11, Effect.keyRelease 0x10,
        Effect.keyRelease 0x5B, Effect.keyRelease 0x5C]) := by
  have h1 : pyInStr "_ALT" ev = false := hmod ("_ALT", 0x12) (by simp [keycodes])
  have h2 : pyInStr "_CONTROL" ev = false :=
    hmod ("_CONTROL", 0x11) (by simp [keycodes])
  have h3 : pyInStr "_SHIFT" ev = false :=
    hmod ("_SHIFT", 0x10) (by simp [keycodes])
  have h4 : pyInStr "VK_LWIN" ev = false :=
    hmod ("VK_LWIN", 0x5B) (by simp [keycodes])
  have h5 : pyInStr "VK_RWIN" ev = false :=
    hmod ("VK_RWIN", 0x5C) (by simp [keycodes])
  simp [detect_keyboard, hfoc, emittedReleases, keycodes, h1, h2, h3, h4, h5]

/-- Witness for C2 at a focused application and the non-modifier event
type "V". -/
theorem c2_witness :
    detect_keyboard (some focusedApp) "V" =
      (some { focusedApp with just_focused := false },
       [Effect.keyRelease 0x12, Effect.keyRelease 0x11, Effect.keyRelease 0x10,
        Effect.keyRelease 0x5B, Effect.keyRelease 0x5C]) :=
  c2_nonmodifier_releases_all focusedApp "V" rfl (by decide)

/-- Claim C3 asserts that when the event's key IS one of the modifiers
(e.g. Control) no release is emitted for that same modifier.  The code
tests `name not in event.type` with the name "_CONTROL", but the host
delivers a Control keypress as event type "LEFT_CTRL" or "RIGHT_CTRL",
neither of which contains "_CONTROL", so the Control release (0x11) is
emitted anyway — the guard the comment on lines 71-73 documents never
fires for Control.  This theorem evaluates the code at the failing
input: the key is Control, yet all five releases, Control's included,
are emitted. -/
theorem c3_control_release_emitted_anyway :
    "LEFT_CTRL" ∈ controlEventTypes ∧
      (detect_keyboard (some focusedApp) "LEFT_CTRL").2 =
        [Effect.keyRelease 0x12, Effect.keyRelease 0x11, Effect.keyRelease 0x10,
         Effect.keyRelease 0x5B, Effect.keyRelease 0x5C] ∧
      Effect.keyRelease 0x11 ∈ (detect_keyboard (some focusedApp) "LEFT_CTRL").2 := by
  refine ⟨by decide, by decide, by decide⟩

/-- Claim C4 asserts that the hook list never holds duplicates and that
redundant register/unregister calls are error-free no-ops.  The
hook-list operations are membership-guarded, but `unregister` itself
raises: line 182 evaluates `focus.QFocusOperator` and the name `focus`
is not defined anywhere in the module, so with BQT_DISABLE_WRAP unset
every call to `unregister` — the first one included — raises a
NameError before reaching the guarded removals.  This theorem evaluates
the code at the failing input. -/
theorem c4_unregister_raises_nameerror :
    unregister envUnset readyState = (readyState, some PyError.nameError) := by
  decide

/-- Claim C5: with neither disabling variable set, and starting from a
state in which the operator class is not yet registered (the state of
every process before its first `register` call — otherwise line 155
raises a ValueError and nothing is appended) and the wrap hook is not
yet hooked, `register` completes without raising and puts
`add_focus_handle` into `load_post` at a position strictly before
`create_global_app` (shown as the two-element sublist), so on the first
scene load the keyboard-workaround hook runs before the window-wrap
hook. -/
theorem c5_workaround_before_wrap (env : Env) (s : State)
    (h0 : "QFocusOperator" ∉ s.registeredClasses)
    (h1 : getenvTruthy env.BQT_DISABLE_STARTUP = false)
    (h2 : getenvTruthy env.BQT_DISABLE_WRAP = false)
    (h3 : Handler.createGlobalApp ∉ s.hooks) :
    (register env s).2 = none ∧
      List.Sublist [Handler.addFocusHandle, Handler.createGlobalApp]
        (((register env s).1).hooks) := by
  by_cases hA : Handler.addFocusHandle ∈ s.hooks
  · have hsnd : (register env s).2 = none := by
      simp [register, registerTail, h0, h1, h2, hA, h3]
    have hreg : ((register env s).1).hooks
        = s.hooks ++ [Handler.createGlobalApp] := by
      simp [register, registerTail, h0, h1, h2, hA, h3]
    refine ⟨hsnd, ?_⟩
    rw [hreg]
    exact (List.singleton_sublist.mpr hA).append (List.Sublist.refl _)
  · have hC : Handler.createGlobalApp ∉ s.hooks ++ [Handler.addFocusHandle] := by
      simp [h3]
    have hsnd : (register env s).2 = none := by
      simp [register, registerTail, h0, h1, h2, hA, hC]
    have hreg : ((register env s).1).hooks
        = s.hooks ++ [Handler.addFocusHandle] ++ [Handler.createGlobalApp] := by
      simp [register, registerTail, h0, h1, h2, hA, hC]
    refine ⟨hsnd, ?_⟩
    rw [hreg, List.append_assoc]
    exact List.sublist_append_right _ _

/-- Witness for C5 in a fresh win32 environment with both variables
unset. -/
theorem c5_witness :
    (register envUnset initState).2 = none ∧
      List.Sublist [Handler.addFocusHandle, Handler.createGlobalApp]
        (((register envUnset initState).1).hooks) :=
  c5_workaround_before_wrap envUnset initState (by decide) rfl rfl (by decide)

/-- Claim C6 asserts that BQT_DISABLE_WRAP disables the window-wrap
hook while the focus operator and keyboard-workaround hook are still
set up.  The code does the opposite: the guard on line 154 makes the
variable skip the operator registration and the `add_focus_handle`
append, while the `create_global_app` append on lines 168-169 runs
unconditionally.  Evaluation at the failing input: the wrap hook is
registered, the workaround hook and the operator class are not. -/
theorem c6_disable_wrap_disables_workaround_instead :
    (((register envWrapDisabled initState).1).hooks
        = [Handler.createGlobalApp]) ∧
      ((register envWrapDisabled initState).1).registeredClasses = [] := by
  exact ⟨rfl, rfl⟩

/-- Claim C7 as stated says that on Linux the platform loader returns
nothing and the window-wrap step silently does nothing (non-fatal, no
crash).  Counterexample at a concrete Linux state: the loader does
return nothing, but `create_global_app` raises an AttributeError
(line 138 dereferences `qapp._blender_window` with `qapp = None`)
instead of completing silently. -/
theorem c7_counterexample :
    load_os_module Platform.linux = none ∧
      (create_global_app linuxState).2 = some PyError.attributeError :=
  ⟨rfl, rfl⟩

/-- Claim C7 amended: on the Linux branch the platform loader returns
nothing, and `create_global_app` then raises an AttributeError on the
missing application — the wrap step is fatal to the hook, not a silent
no-op — leaving the state (the hook list included) unchanged. -/
theorem c7_amended_wrap_step_raises (s : State)
    (hp : s.platform = Platform.linux) (ha : s.app = none) :
    load_os_module s.platform = none ∧
      (create_global_app s).2 = some PyError.attributeError ∧
      (create_global_app s).1 = s := by
  have hinst : instantiate_application s = none := by
    unfold instantiate_application
    rw [ha, hp]
    rfl
  refine ⟨by rw [hp]; rfl, ?_, ?_⟩
  · simp only [create_global_app, hinst]
  · simp only [create_global_app, hinst]

/-- Witness for the amended C7 at the concrete Linux state. -/
theorem c7_witness :
    load_os_module linuxState.platform = none ∧
      (create_global_app linuxState).2 = some PyError.attributeError ∧
      (create_global_app linuxState).1 = linuxState :=
  c7_amended_wrap_step_raises linuxState rfl rfl

/-- Claim C8: when no application singleton exists, `detect_keyboard`
emits no key-release signal, leaves the singleton state untouched, its
only effect is the diagnostic message, and it does not raise (the
embedding is total; the Python path is a print and a plain return). -/
theorem c8_no_app_is_noop (ev : String) :
    detect_keyboard none ev = (none, [Effect.diagnosticNoApp]) := rfl

/-- Claim C9: `on_exit` with an existing singleton persists the window
geometry and then quits the application, in that order; with no
singleton it does nothing. -/
theorem c9_exit_persists_then_quits (a : App) :
    on_exit (some a) =
      (some { a with savedGeometry := some a.geometry, running := false },
       [Effect.storeGeometry, Effect.quitCalled]) ∧
      on_exit none = (none, []) :=
  ⟨rfl, rfl⟩

/-- Claim C10: whatever application `detect_keyboard` returns agrees
with the input application on every field other than `just_focused`,
and the flag either is unchanged or goes from true to false; in
particular the flag is never set to true. -/
theorem c10_only_clears_flag (a : App) (ev : String) (a' : App)
    (h : (detect_keyboard (some a) ev).1 = some a') :
    a'.geometry = a.geometry ∧ a'.savedGeometry = a.savedGeometry ∧
      a'.running = a.running ∧
      (a'.just_focused = a.just_focused ∨
        (a.just_focused = true ∧ a'.just_focused = false)) := by
  unfold detect_keyboard at h
  cases hf : a.just_focused with
  | true =>
    simp only [hf, if_true] at h
    obtain rfl := (Option.some.inj h).symm
    exact ⟨rfl, rfl, rfl, Or.inr ⟨rfl, rfl⟩⟩
  | false =>
    simp only [hf, Bool.false_eq_true, if_false] at h
    obtain rfl := (Option.some.inj h).symm
    exact ⟨rfl, rfl, rfl, Or.inl hf⟩

/-- Witness for C10 at a focused application and the event type "V". -/
theorem c10_witness :
    ({ focusedApp with just_focused := false } : App).geometry
        = focusedApp.geometry ∧
      ({ focusedApp with just_focused := false } : App).savedGeometry
        = focusedApp.savedGeometry ∧
      ({ focusedApp with just_focused := false } : App).running
        = focusedApp.running ∧
      (({ focusedApp with just_focused := false } : App).just_focused
          = focusedApp.just_focused ∨
        (focusedApp.just_focused = true ∧
          ({ focusedApp with just_focused := false } : App).just_focused
            = false)) :=
  c10_only_clears_flag focusedApp "V"
    { focusedApp with just_focused := false } (by decide)

end Bqt
